import Mathlib

/-!
Shallow embedding of the client-side identity-verification wizard of
`src/front/src/components/IDVerification/index.jsx` (the `IDVerification`
React component), together with the browser builtins it relies on
(`atob`, `btoa`, `FileReader.readAsDataURL`, canvas `toDataURL`,
`MediaStreamTrack.stop`).  Remote endpoints and the camera grant are
modelled as explicit inputs (an `Env` value / an `Option` grant), and the
two `fetch` calls are recorded in an event trace so that claims about
which requests fire, with which multipart fields, can be stated.
-/

namespace IDV

/-! ### Browser builtins: forgiving base64 (`atob` / `btoa`) -/

/-- ASCII whitespace, removed by the WHATWG forgiving-base64 decoder that
backs the browser builtin `atob`. -/
def isB64Whitespace (c : Char) : Bool :=
  c = ' ' || c = '\t' || c = '\n' || c = '\x0c' || c = '\r'

/-- Value of one base64 alphabet character; `none` for a character outside
the alphabet (which makes `atob` throw `InvalidCharacterError`). -/
def b64Val (c : Char) : Option Nat :=
  if 'A' ≤ c ∧ c ≤ 'Z' then some (c.toNat - 65)
  else if 'a' ≤ c ∧ c ≤ 'z' then some (c.toNat - 97 + 26)
  else if '0' ≤ c ∧ c ≤ '9' then some (c.toNat - 48 + 52)
  else if c = '+' then some 62
  else if c = '/' then some 63
  else none

/-- Strip up to two trailing padding characters when the length is a
multiple of four, as the forgiving-base64 decoder does. -/
def stripB64Padding (cs : List Char) : List Char :=
  if cs.length % 4 = 0 then
    match cs.reverse with
    | '=' :: '=' :: rest => rest.reverse
    | '=' :: rest => rest.reverse
    | _ => cs
  else cs

/-- Decode base64 characters four at a time into bytes; a final group of
two or three characters yields one or two bytes (forgiving-base64). -/
def b64DecodeGroups : List Char → Option (List Nat)
  | [] => some []
  | [_] => none
  | [c1, c2] =>
      match b64Val c1, b64Val c2 with
      | some v1, some v2 => some [v1 * 4 + v2 / 16]
      | _, _ => none
  | [c1, c2, c3] =>
      match b64Val c1, b64Val c2, b64Val c3 with
      | some v1, some v2, some v3 => some [v1 * 4 + v2 / 16, v2 % 16 * 16 + v3 / 4]
      | _, _, _ => none
  | c1 :: c2 :: c3 :: c4 :: rest =>
      match b64Val c1, b64Val c2, b64Val c3, b64Val c4, b64DecodeGroups rest with
      | some v1, some v2, some v3, some v4, some bs =>
          some ((v1 * 4 + v2 / 16) :: (v2 % 16 * 16 + v3 / 4) :: (v3 % 4 * 64 + v4) :: bs)
      | _, _, _, _, _ => none

/-- Model of the browser builtin `atob`: forgiving-base64 decode of a
string (given as its character list) to a byte list; `none` models the
`InvalidCharacterError` throw. -/
def atob (cs : List Char) : Option (List Nat) :=
  let filtered := cs.filter (fun c => !(isB64Whitespace c))
  let stripped := stripB64Padding filtered
  if stripped.length % 4 = 1 then none
  else b64DecodeGroups stripped

/-- The base64 alphabet in order. -/
def b64Chars : List Char :=
  "ABCDEFGHIJKLMNOPQRSTUVWXYZabcdefghijklmnopqrstuvwxyz0123456789+/".toList

/-- Character for a 6-bit value. -/
def b64Char (n : Nat) : Char := b64Chars.getD n 'A'

/-- Encode bytes three at a time into base64 characters, padding the final
group with `=`. -/
def b64EncodeGroups : List Nat → List Char
  | [] => []
  | [b1] => [b64Char (b1 / 4 % 64), b64Char (b1 % 4 * 16), '=', '=']
  | [b1, b2] =>
      [b64Char (b1 / 4 % 64), b64Char (b1 % 4 * 16 + b2 / 16 % 16),
       b64Char (b2 % 16 * 4), '=']
  | b1 :: b2 :: b3 :: rest =>
      b64Char (b1 / 4 % 64) :: b64Char (b1 % 4 * 16 + b2 / 16 % 16) ::
      b64Char (b2 % 16 * 4 + b3 / 64 % 4) :: b64Char (b3 % 64) ::
      b64EncodeGroups rest

/-- Model of the browser builtin `btoa`: base64-encode a byte list. -/
def btoa (bytes : List Nat) : String := String.mk (b64EncodeGroups bytes)

/-! ### Browser objects: files, media tracks, video sink -/

/-- A JavaScript `File` as built by `new File([u8arr], filename, \x7b type: mime \x7d)`:
a name, a MIME type and its binary content. -/
structure JsFile where
  name : String
  mime : String
  data : List Nat
  deriving DecidableEq, Repr

/-- Model of `FileReader.readAsDataURL` followed by reading `reader.result`
on a successful load: a `data:` URL carrying the MIME type and the
base64-encoded content. -/
def readAsDataURL (f : JsFile) : String :=
  "data:" ++ f.mime ++ ";base64," ++ btoa f.data

/-- A `MediaStreamTrack`: all the wizard does with one is `stop()` it, so
only the stopped flag is modelled. -/
structure Track where
  stopped : Bool
  deriving DecidableEq, Repr

/-- The `<video>` element behind `videoRef.current`: its intrinsic size and
the raster of the currently displayed frame. -/
structure Video where
  videoWidth : Nat
  videoHeight : Nat
  frame : List Nat
  deriving DecidableEq, Repr

/-- The two refs of the component: `videoRef.current` (the bound video
sink, `null` when no `<video>` element is attached) and
`streamRef.current` (the acquired media stream, `null` before
`startWebcam` succeeds). -/
structure CameraState where
  videoRef : Option Video
  streamRef : Option (List Track)
  deriving DecidableEq, Repr

/-- Model of `canvas.toDataURL` after `drawImage(videoRef.current, 0, 0)`
on a canvas sized to the video: a zero-sized canvas serializes to
`"data:,"`, otherwise the frame raster is JPEG-encoded (modelled as the
raw raster) and base64-wrapped. -/
def canvasToDataURL (v : Video) : String :=
  if v.videoWidth = 0 ∨ v.videoHeight = 0 then "data:,"
  else "data:image/jpeg;base64," ++ btoa v.frame

/-! ### Wizard state (the `useState` hooks of `IDVerification`) -/

/-- The component state: `step`, the three captured images (as `data:` URL
strings, `null` initially), the processing flag, the error banner text and
the extracted structured record. -/
structure WizardState where
  step : Nat
  frontID : Option String
  backID : Option String
  selfieImage : Option String
  isProcessing : Bool
  error : Option String
  extractedData : Option (List (String × String))
  deriving DecidableEq, Repr

/-- The initial state of the component: `useState(1)`, `useState(null)`
four times, `useState(false)`, `useState(null)`. -/
def initialState : WizardState :=
  { step := 1, frontID := none, backID := none, selfieImage := none,
    isProcessing := false, error := none, extractedData := none }

/-! ### Handlers of the component -/

/-- Embedding of `handleFileUpload(event, side)`: `event.target.files[0]`
is the optional selected file; when absent nothing runs, otherwise the
`FileReader` `onloadend` callback stores the data URL in the slot for
`side` and sets the step (2 after the front side, 3 after the back). -/
def handleFileUpload (file : Option JsFile) (side : String) (s : WizardState) : WizardState :=
  match file with
  | none => s
  | some f =>
      if side = "front" then { s with frontID := some (readAsDataURL f), step := 2 }
      else { s with backID := some (readAsDataURL f), step := 3 }

/-- The message set by the `catch` of `startWebcam`. -/
def webcamErrorMsg : String :=
  "Unable to access webcam. Please make sure you have granted permission."

/-- Embedding of `startWebcam`: `grant` is the outcome of
`getUserMedia(\x7b video: true \x7d)` (`none` for denial or device absence, which
rejects and lands in the `catch`).  On grant the stream is bound to the
video sink and stored in `streamRef`; if `videoRef.current` is `null` the
`srcObject` assignment throws inside the `try`, so the same catch branch
runs and `streamRef` is never written. -/
def startWebcam (grant : Option (List Track)) (c : CameraState) (s : WizardState) :
    CameraState × WizardState :=
  match grant with
  | none => (c, { s with error := some webcamErrorMsg })
  | some stream =>
      match c.videoRef with
      | none => (c, { s with error := some webcamErrorMsg })
      | some _ => ({ c with streamRef := some stream }, s)

/-- Embedding of `track.stop()`: stopping a track that is already stopped
is a no-op (the track just stays ended). -/
def stopTrack (t : Track) : Track := { t with stopped := true }

/-- Embedding of `stopWebcam`: when `streamRef.current` is set, stop every
track of the stream.  Note the ref itself is not cleared by the source. -/
def stopWebcam (c : CameraState) : CameraState :=
  match c.streamRef with
  | none => c
  | some tracks => { c with streamRef := some (tracks.map stopTrack) }

/-- Embedding of `captureImage`: reading `videoRef.current.videoWidth`
throws a `TypeError` when the sink is `null` (the function has no guard
and no try/catch, so the throw is uncaught and no state update runs);
otherwise the current frame is drawn to a canvas, serialized, stored as
the selfie, the webcam is stopped and the step set to 4. -/
def captureImage (c : CameraState) (s : WizardState) :
    Except String (CameraState × WizardState) :=
  match c.videoRef with
  | none => Except.error "TypeError: Cannot read properties of null"
  | some video =>
      let image := canvasToDataURL video
      Except.ok (stopWebcam c, { s with selfieImage := some image, step := 4 })

/-! ### `convertBase64ToFile` -/

/-- Split a character list at every occurrence of a separator character,
the semantics of the JavaScript `String.prototype.split` with a one-character
separator. -/
def splitOnChar (sep : Char) : List Char → List (List Char)
  | [] => [[]]
  | c :: rest =>
      let r := splitOnChar sep rest
      if c = sep then [] :: r
      else
        match r with
        | [] => [[c]]
        | h :: t => (c :: h) :: t

/-- Characters up to the first `;`, failing when none occurs before the
end or before a newline (which `.` of the regex cannot cross). -/
def takeUntilSemi : List Char → Option (List Char)
  | [] => none
  | ';' :: _ => some []
  | '\n' :: _ => none
  | c :: rest => (takeUntilSemi rest).map (fun l => c :: l)

/-- The capture group of the lazy regex match `arr[0].match(/:(.*?);/)[1]`:
the shortest run between a `:` and a following `;`; `none` models `match`
returning `null`, on which the `[1]` subscript throws. -/
def matchColonSemi : List Char → Option (List Char)
  | [] => none
  | ':' :: rest =>
      match takeUntilSemi rest with
      | some mid => some mid
      | none => matchColonSemi rest
  | _ :: rest => matchColonSemi rest

/-- Embedding of `convertBase64ToFile(base64String, filename)`.  A `null`
input throws on `.split`; a head part without a `:(...);` run makes
`.match` return `null` and the `[1]` subscript throw; `atob` throws on
malformed base64 (when the string has no comma, `arr[1]` is `undefined`
and `atob` coerces it to the string `"undefined"`).  Each throw is
modelled as `Except.error` carrying the exception message. -/
def convertBase64ToFile (base64String : Option String) (filename : String) :
    Except String JsFile :=
  match base64String with
  | none => Except.error "TypeError: Cannot read properties of null"
  | some str =>
      let arr := splitOnChar ',' str.toList
      match matchColonSemi (arr.headD []) with
      | none => Except.error "TypeError: Cannot read properties of null"
      | some mime =>
          match arr.getD 1 "undefined".toList with
          | part =>
              match atob part with
              | none =>
                  Except.error
                    "InvalidCharacterError: The string to be decoded is not correctly encoded."
              | some bytes =>
                  Except.ok { name := filename, mime := String.mk mime, data := bytes }

/-! ### The extraction post-processing and the submission pipeline -/

/-- A field line of the raw OCR text: `LABEL: value` yields the pair
`(LABEL, value)`; any other shape is not a field line. -/
def parseFieldLine (line : List Char) : Option (String × String) :=
  match splitOnChar ':' line with
  | [label, ' ' :: value] => some (String.mk label, String.mk value)
  | _ => none

/-- Modelled from the spec: `processExtractedText` is called by
`processVerification` but its definition is not among the provided
sources.  The spec describes it as a fixed, deterministic text-to-field
segmentation producing a StructuredRecord (a mapping of named identity
fields to string values), with missing fields simply absent; its test
property maps the text `NAME: JOHN DOE\nID: 12345` to a record carrying
those literal values.  The model splits the text into lines and keeps
every `LABEL: value` line as a field. -/
def processExtractedText (text : String) : List (String × String) :=
  (splitOnChar '\n' text.toList).filterMap parseFieldLine

/-- The parsed JSON of the face-comparison response; the field `matched`
embeds the JSON field `match` (a Lean keyword). -/
structure FaceJson where
  success : Bool
  matched : Bool
  deriving DecidableEq, Repr

/-- The parsed JSON of the text-extraction response. -/
structure TextJson where
  success : Bool
  extracted_text : String
  deriving DecidableEq, Repr

/-- Outcome of one `await fetch(...)` followed by `await response.json()`:
either a throw (network rejection or JSON parse failure) carrying the
exception message, or the parsed value. -/
inductive FetchResult (α : Type) where
  | thrown (msg : String)
  | ok (value : α)
  deriving DecidableEq, Repr

/-- The remote environment of one run of `processVerification`: what each
endpoint call would yield if issued. -/
structure Env where
  faceResponse : FetchResult FaceJson
  textResponse : FetchResult TextJson
  deriving DecidableEq, Repr

/-- Observable events of a run: state-setter calls, base64-to-file
conversions and issued `fetch` requests with their multipart form
fields. -/
inductive Ev where
  | setIsProcessing (b : Bool)
  | setError (e : Option String)
  | convert (src : Option String) (filename : String)
  | fetch (url : String) (formData : List (String × JsFile))
  | setExtractedData (d : List (String × String))
  | setStep (n : Nat)
  deriving DecidableEq, Repr

/-- URL of the face-comparison endpoint. -/
def compareFacesUrl : String := "http://localhost:5000/api/compare-faces"

/-- URL of the text-extraction endpoint. -/
def extractTextUrl : String := "http://localhost:5000/api/extract-text"

/-- The face-verification failure message thrown by `processVerification`. -/
def faceFailMsg : String := "Face verification failed. Please try again."

/-- The extraction failure message thrown by `processVerification`. -/
def extractFailMsg : String := "Failed to extract information from ID."

/-- The `try` block of `processVerification`, from the two conversions to
`processExtractedText`: the events it emits, and either the failure
message of the first throw or the structured record.  Phase order is that
of the source: convert front, convert selfie, face-comparison fetch,
match check, text-extraction fetch, success check. -/
def pipelineRun (env : Env) (frontID selfieImage : Option String) :
    List Ev × Except String (List (String × String)) :=
  let ev1 := Ev.convert frontID "front-id.jpg"
  match convertBase64ToFile frontID "front-id.jpg" with
  | Except.error m => ([ev1], Except.error m)
  | Except.ok frontIDFile =>
      let ev2 := Ev.convert selfieImage "selfie.jpg"
      match convertBase64ToFile selfieImage "selfie.jpg" with
      | Except.error m => ([ev1, ev2], Except.error m)
      | Except.ok selfieFile =>
          let faceReq := Ev.fetch compareFacesUrl
            [("image1", frontIDFile), ("image2", selfieFile)]
          match env.faceResponse with
          | FetchResult.thrown m => ([ev1, ev2, faceReq], Except.error m)
          | FetchResult.ok faceResult =>
              if !faceResult.success || !faceResult.matched then
                ([ev1, ev2, faceReq], Except.error faceFailMsg)
              else
                let textReq := Ev.fetch extractTextUrl [("image", frontIDFile)]
                match env.textResponse with
                | FetchResult.thrown m => ([ev1, ev2, faceReq, textReq], Except.error m)
                | FetchResult.ok textResult =>
                    if !textResult.success then
                      ([ev1, ev2, faceReq, textReq], Except.error extractFailMsg)
                    else
                      ([ev1, ev2, faceReq, textReq],
                       Except.ok (processExtractedText textResult.extracted_text))

/-- Embedding of `processVerification`: set the processing flag, clear the
error, run the try block; on success store the record and set step 5, on
a throw store the message; the `finally` clears the processing flag
either way.  Returns the new state and the full event trace. -/
def processVerification (env : Env) (s : WizardState) : WizardState × List Ev :=
  match pipelineRun env s.frontID s.selfieImage with
  | (evs, Except.error m) =>
      ({ s with isProcessing := false, error := some m },
       Ev.setIsProcessing true :: Ev.setError none :: evs
         ++ [Ev.setError (some m), Ev.setIsProcessing false])
  | (evs, Except.ok d) =>
      ({ s with isProcessing := false, error := none,
                extractedData := some d, step := 5 },
       Ev.setIsProcessing true :: Ev.setError none :: evs
         ++ [Ev.setExtractedData d, Ev.setStep 5, Ev.setIsProcessing false])

/-! ### User actions and their availability (from the render) -/

/-- The user actions the rendered views expose: selecting a front or back
file (the optional file is `event.target.files[0]`), capturing a frame,
retaking (which restarts the webcam, with the grant outcome attached) and
submitting (with the remote environment of that run attached). -/
inductive Action where
  | uploadFront (file : Option JsFile)
  | uploadBack (file : Option JsFile)
  | capture
  | retake (grant : Option (List Track))
  | submit (env : Env)

/-- Availability of an action, read off the render: the front upload box
only exists at step 1, the back box at step 2, the webcam view (capture
and retake) at step 3, and the verify button at step 4 with the button
disabled while processing. -/
def available (a : Action) (s : WizardState) : Bool :=
  match a with
  | Action.uploadFront _ => s.step == 1
  | Action.uploadBack _ => s.step == 2
  | Action.capture => s.step == 3
  | Action.retake _ => s.step == 3
  | Action.submit _ => s.step == 4 && !s.isProcessing

/-- Whether an action is the retake action. -/
def isRetake : Action → Bool
  | Action.retake _ => true
  | _ => false

/-- Success of an action: a file was actually selected, the capture found
a bound video sink, or the submission pipeline ran to completion.  Retake
is counted as succeeding (it only restarts the preview). -/
def succeeds (a : Action) (c : CameraState) (s : WizardState) : Bool :=
  match a with
  | Action.uploadFront f => f.isSome
  | Action.uploadBack f => f.isSome
  | Action.capture => c.videoRef.isSome
  | Action.retake _ => true
  | Action.submit env =>
      match (pipelineRun env s.frontID s.selfieImage).2 with
      | Except.ok _ => true
      | Except.error _ => false

/-- Apply an action to the refs and the state.  An uncaught throw of
`captureImage` aborts the handler before any state setter has run, so the
state is unchanged in that case. -/
def applyAction (a : Action) (c : CameraState) (s : WizardState) :
    CameraState × WizardState :=
  match a with
  | Action.uploadFront f => (c, handleFileUpload f "front" s)
  | Action.uploadBack f => (c, handleFileUpload f "back" s)
  | Action.capture =>
      match captureImage c s with
      | Except.ok r => r
      | Except.error _ => (c, s)
  | Action.retake g => startWebcam g c s
  | Action.submit env => (c, (processVerification env s).1)

/-- Whether an event is a `fetch` to the given URL. -/
def isFetchTo (url : String) : Ev → Bool
  | Ev.fetch u _ => u == url
  | _ => false

/-! ### Concrete fixtures for instantiations -/

/-- A small well-formed data URL (decoding to three zero bytes). -/
def dataUrlW : String := "data:image/jpeg;base64,AAAA"

/-- A review-step state holding decodable front and selfie images. -/
def stateW : WizardState :=
  { initialState with step := 4, frontID := some dataUrlW, selfieImage := some dataUrlW }

/-- The front-ID file `convertBase64ToFile` produces from `dataUrlW`. -/
def fileFrontW : JsFile :=
  { name := "front-id.jpg", mime := "image/jpeg", data := [0, 0, 0] }

/-- The selfie file `convertBase64ToFile` produces from `dataUrlW`. -/
def fileSelfieW : JsFile :=
  { name := "selfie.jpg", mime := "image/jpeg", data := [0, 0, 0] }

/-- Refs with no bound sink and no acquired stream. -/
def camW : CameraState := { videoRef := none, streamRef := none }

/-- An environment whose face endpoint reports success without a match. -/
def envMismatch : Env :=
  { faceResponse := FetchResult.ok { success := true, matched := false },
    textResponse := FetchResult.ok { success := true, extracted_text := "" } }

/-- An environment where both endpoints succeed and extraction returns the
two-line record of the spec. -/
def envMatch : Env :=
  { faceResponse := FetchResult.ok { success := true, matched := true },
    textResponse := FetchResult.ok
      { success := true, extracted_text := "NAME: JOHN DOE\nID: 12345" } }

/-! ### Helper lemmas -/

/-- A fetch to the face-comparison endpoint is not a text-extraction
request. -/
theorem isFetchTo_extract_of_face (l : List (String × JsFile)) :
    isFetchTo extractTextUrl (Ev.fetch compareFacesUrl l) = false := by
  show (compareFacesUrl == extractTextUrl) = false
  decide

/-- A fetch to the text-extraction endpoint is a text-extraction
request. -/
theorem isFetchTo_extract_of_extract (l : List (String × JsFile)) :
    isFetchTo extractTextUrl (Ev.fetch extractTextUrl l) = true := by
  show (extractTextUrl == extractTextUrl) = true
  simp

/-- Stopping a track twice is the same as stopping it once. -/
theorem stopTrack_stopTrack (t : Track) : stopTrack (stopTrack t) = stopTrack t := rfl

/-- A processing-flag event is not a fetch. -/
theorem isFetchTo_setIsProcessing (url : String) (b : Bool) :
    isFetchTo url (Ev.setIsProcessing b) = false := rfl

/-- An error event is not a fetch. -/
theorem isFetchTo_setError (url : String) (e : Option String) :
    isFetchTo url (Ev.setError e) = false := rfl

/-- A conversion event is not a fetch. -/
theorem isFetchTo_convert (url : String) (src : Option String) (fn : String) :
    isFetchTo url (Ev.convert src fn) = false := rfl

/-- A record event is not a fetch. -/
theorem isFetchTo_setExtractedData (url : String) (d : List (String × String)) :
    isFetchTo url (Ev.setExtractedData d) = false := rfl

/-- A step event is not a fetch. -/
theorem isFetchTo_setStep (url : String) (n : Nat) :
    isFetchTo url (Ev.setStep n) = false := rfl

/-! ### Claim theorems -/

/-- C1: for every run of `processVerification` whose images decode, with
face-comparison response `success, match` both true and extraction
response success with extracted text `NAME: JOHN DOE\nID: 12345`, the
resulting state carries a structured record with the name and ID-number
fields at those literal values, and the step advances to 5. -/
theorem processVerification_success_extracts (env : Env) (s : WizardState)
    (f1 f2 : JsFile)
    (h1 : convertBase64ToFile s.frontID "front-id.jpg" = Except.ok f1)
    (h2 : convertBase64ToFile s.selfieImage "selfie.jpg" = Except.ok f2)
    (hface : env.faceResponse = FetchResult.ok { success := true, matched := true })
    (htext : env.textResponse = FetchResult.ok
      { success := true, extracted_text := "NAME: JOHN DOE\nID: 12345" }) :
    (processVerification env s).1.step = 5 ∧
    (processVerification env s).1.extractedData =
      some [("NAME", "JOHN DOE"), ("ID", "12345")] := by
  simp [processVerification, pipelineRun, h1, h2, hface, htext]
  decide

/-- Witness for C1 at the concrete fixtures. -/
theorem processVerification_success_extracts_witness :
    convertBase64ToFile stateW.frontID "front-id.jpg" = Except.ok fileFrontW ∧
    convertBase64ToFile stateW.selfieImage "selfie.jpg" = Except.ok fileSelfieW ∧
    ((processVerification envMatch stateW).1.step = 5 ∧
     (processVerification envMatch stateW).1.extractedData =
       some [("NAME", "JOHN DOE"), ("ID", "12345")]) :=
  ⟨rfl, rfl,
   processVerification_success_extracts envMatch stateW fileFrontW fileSelfieW
     rfl rfl rfl rfl⟩

/-- C2: when the face endpoint answers success without a match, the run
ends with the error field set and no request to the text-extraction
endpoint in its trace. -/
theorem faceMismatch_no_extraction (env : Env) (s : WizardState)
    (hface : env.faceResponse = FetchResult.ok { success := true, matched := false }) :
    ((processVerification env s).1.error).isSome = true ∧
    ((processVerification env s).2.filter (isFetchTo extractTextUrl)) = [] := by
  rcases hc1 : convertBase64ToFile s.frontID "front-id.jpg" with m | f1
  · simp [processVerification, pipelineRun, hc1, isFetchTo]
  · rcases hc2 : convertBase64ToFile s.selfieImage "selfie.jpg" with m | f2
    · simp [processVerification, pipelineRun, hc1, hc2, isFetchTo]
    · simp [processVerification, pipelineRun, hc1, hc2, hface, isFetchTo,
            isFetchTo_extract_of_face]
      decide

/-- Witness for C2 at the concrete fixtures. -/
theorem faceMismatch_no_extraction_witness :
    envMismatch.faceResponse = FetchResult.ok { success := true, matched := false } ∧
    (((processVerification envMismatch stateW).1.error).isSome = true ∧
     ((processVerification envMismatch stateW).2.filter (isFetchTo extractTextUrl)) = []) :=
  ⟨rfl, faceMismatch_no_extraction envMismatch stateW rfl⟩

/-- C3: whenever the try block of `processVerification` fails — at image
decoding, either remote call, or result checking — the final state is the
starting state with the processing flag cleared and the error field set
to the failure message; in particular step and extractedData are
unchanged. -/
theorem pipeline_failure_state (env : Env) (s : WizardState) (evs : List Ev) (m : String)
    (h : pipelineRun env s.frontID s.selfieImage = (evs, Except.error m)) :
    (processVerification env s).1 = { s with isProcessing := false, error := some m } := by
  simp [processVerification, h]

/-- Witness for C3: with no front image stored, the pipeline throws on the
null dereference and the state keeps its step and record. -/
theorem pipeline_failure_state_witness :
    pipelineRun envMismatch initialState.frontID initialState.selfieImage =
      ([Ev.convert none "front-id.jpg"],
       Except.error "TypeError: Cannot read properties of null") ∧
    (processVerification envMismatch initialState).1 =
      { initialState with isProcessing := false,
                          error := some "TypeError: Cannot read properties of null" } :=
  ⟨rfl,
   pipeline_failure_state envMismatch initialState [Ev.convert none "front-id.jpg"]
     "TypeError: Cannot read properties of null" rfl⟩

/-- C4: every available user action that succeeds and is not a retake
moves the step forward by exactly one; a retake leaves the step where it
is; and no available action, successful or not, ever decreases the
step. -/
theorem step_advances_by_one (a : Action) (c : CameraState) (s : WizardState)
    (h : available a s = true) :
    (succeeds a c s = true → isRetake a = false →
      (applyAction a c s).2.step = s.step + 1) ∧
    (isRetake a = true → (applyAction a c s).2.step = s.step) ∧
    s.step ≤ (applyAction a c s).2.step := by
  cases a with
  | uploadFront f =>
      simp only [available, beq_iff_eq] at h
      cases f with
      | none => simp [applyAction, handleFileUpload, isRetake, succeeds, h]
      | some fl => simp [applyAction, handleFileUpload, isRetake, succeeds, h]
  | uploadBack f =>
      simp only [available, beq_iff_eq] at h
      cases f with
      | none => simp [applyAction, handleFileUpload, isRetake, succeeds, h]
      | some fl => simp [applyAction, handleFileUpload, isRetake, succeeds, h]
  | capture =>
      simp only [available, beq_iff_eq] at h
      rcases hv : c.videoRef with _ | v
      · simp [applyAction, captureImage, isRetake, succeeds, hv, h]
      · simp [applyAction, captureImage, isRetake, succeeds, hv, h]
  | retake g =>
      simp only [available, beq_iff_eq] at h
      cases g with
      | none => simp [applyAction, startWebcam, isRetake, succeeds, h]
      | some stream =>
          rcases hv : c.videoRef with _ | v
          · simp [applyAction, startWebcam, isRetake, succeeds, hv, h]
          · simp [applyAction, startWebcam, isRetake, succeeds, hv, h]
  | submit env =>
      simp only [available, Bool.and_eq_true, beq_iff_eq, Bool.not_eq_eq_eq_not,
        Bool.not_true] at h
      rcases hp : pipelineRun env s.frontID s.selfieImage with ⟨evs, res⟩
      cases res with
      | error m =>
          simp [applyAction, processVerification, isRetake, succeeds, hp, h.1]
      | ok d =>
          simp [applyAction, processVerification, isRetake, succeeds, hp, h.1]

/-- Witness for C4: the front upload with a selected file, taken from the
initial state. -/
theorem step_advances_by_one_witness :
    available (Action.uploadFront (some fileFrontW)) initialState = true ∧
    ((succeeds (Action.uploadFront (some fileFrontW)) camW initialState = true →
       isRetake (Action.uploadFront (some fileFrontW)) = false →
       (applyAction (Action.uploadFront (some fileFrontW)) camW initialState).2.step
         = initialState.step + 1) ∧
     (isRetake (Action.uploadFront (some fileFrontW)) = true →
       (applyAction (Action.uploadFront (some fileFrontW)) camW initialState).2.step
         = initialState.step) ∧
     initialState.step ≤
       (applyAction (Action.uploadFront (some fileFrontW)) camW initialState).2.step) :=
  ⟨rfl, step_advances_by_one (Action.uploadFront (some fileFrontW)) camW initialState rfl⟩

/-- C5 counterexample: with a success-no-match response the run does fail,
but the stored message is `Face verification failed. Please try again.`,
not the claimed literal `Face verification failed`. -/
theorem faceFail_message_differs :
    (processVerification envMismatch stateW).1.error = some faceFailMsg ∧
    (processVerification envMismatch stateW).1.error ≠ some "Face verification failed" := by
  decide

/-- C5 (amended): assuming the images decode and the face endpoint yields
parsed JSON `j`, the run fails with message `Face verification failed.
Please try again.` and no text-extraction request exactly when `j` does
not report both success and a match; otherwise phase 2 fires exactly
once. -/
theorem facePhase_gate (env : Env) (s : WizardState) (j : FaceJson) (f1 f2 : JsFile)
    (h1 : convertBase64ToFile s.frontID "front-id.jpg" = Except.ok f1)
    (h2 : convertBase64ToFile s.selfieImage "selfie.jpg" = Except.ok f2)
    (hface : env.faceResponse = FetchResult.ok j) :
    (((processVerification env s).1.error = some faceFailMsg ∧
      (processVerification env s).2.filter (isFetchTo extractTextUrl) = []) ↔
      ¬(j.success = true ∧ j.matched = true)) ∧
    (j.success = true ∧ j.matched = true →
      ((processVerification env s).2.filter (isFetchTo extractTextUrl)).length = 1) := by
  rcases j with ⟨su, ma⟩
  cases su with
  | false =>
      simp [processVerification, pipelineRun, h1, h2, hface, List.filter_cons,
        isFetchTo_extract_of_face, isFetchTo_extract_of_extract,
        isFetchTo_setIsProcessing, isFetchTo_setError, isFetchTo_convert,
        isFetchTo_setExtractedData, isFetchTo_setStep]
  | true =>
      cases ma with
      | false =>
          simp [processVerification, pipelineRun, h1, h2, hface, List.filter_cons,
            isFetchTo_extract_of_face, isFetchTo_extract_of_extract,
            isFetchTo_setIsProcessing, isFetchTo_setError, isFetchTo_convert,
            isFetchTo_setExtractedData, isFetchTo_setStep]
      | true =>
          rcases ht : env.textResponse with m | tj
          · simp [processVerification, pipelineRun, h1, h2, hface, ht, List.filter_cons,
              isFetchTo_extract_of_face, isFetchTo_extract_of_extract,
              isFetchTo_setIsProcessing, isFetchTo_setError, isFetchTo_convert,
              isFetchTo_setExtractedData, isFetchTo_setStep]
          · rcases tj with ⟨tsu, ttext⟩
            cases tsu with
            | false =>
                simp [processVerification, pipelineRun, h1, h2, hface, ht, List.filter_cons,
                  isFetchTo_extract_of_face, isFetchTo_extract_of_extract,
                  isFetchTo_setIsProcessing, isFetchTo_setError, isFetchTo_convert,
                  isFetchTo_setExtractedData, isFetchTo_setStep]
            | true =>
                simp [processVerification, pipelineRun, h1, h2, hface, ht, List.filter_cons,
                  isFetchTo_extract_of_face, isFetchTo_extract_of_extract,
                  isFetchTo_setIsProcessing, isFetchTo_setError, isFetchTo_convert,
                  isFetchTo_setExtractedData, isFetchTo_setStep]

/-- Witness for C5 (amended) at the concrete fixtures. -/
theorem facePhase_gate_witness :
    convertBase64ToFile stateW.frontID "front-id.jpg" = Except.ok fileFrontW ∧
    convertBase64ToFile stateW.selfieImage "selfie.jpg" = Except.ok fileSelfieW ∧
    envMismatch.faceResponse =
      FetchResult.ok { success := true, matched := false } ∧
    ((((processVerification envMismatch stateW).1.error = some faceFailMsg ∧
       (processVerification envMismatch stateW).2.filter (isFetchTo extractTextUrl) = []) ↔
       ¬(({ success := true, matched := false } : FaceJson).success = true ∧
         ({ success := true, matched := false } : FaceJson).matched = true)) ∧
     (({ success := true, matched := false } : FaceJson).success = true ∧
        ({ success := true, matched := false } : FaceJson).matched = true →
       ((processVerification envMismatch stateW).2.filter
         (isFetchTo extractTextUrl)).length = 1)) :=
  ⟨rfl, rfl, rfl,
   facePhase_gate envMismatch stateW { success := true, matched := false }
     fileFrontW fileSelfieW rfl rfl rfl⟩

/-- C6: assuming the images decode to `f1` (front) and `f2` (selfie),
every fetch in the trace of a run is either the face-comparison request
with multipart fields `image1 = f1, image2 = f2` or the text-extraction
request with the single field `image = f1`; in particular the back image
is part of neither payload. -/
theorem requests_carry_expected_fields (env : Env) (s : WizardState) (f1 f2 : JsFile)
    (h1 : convertBase64ToFile s.frontID "front-id.jpg" = Except.ok f1)
    (h2 : convertBase64ToFile s.selfieImage "selfie.jpg" = Except.ok f2) :
    ∀ e ∈ (processVerification env s).2, ∀ url fd, e = Ev.fetch url fd →
      (url = compareFacesUrl ∧ fd = [("image1", f1), ("image2", f2)]) ∨
      (url = extractTextUrl ∧ fd = [("image", f1)]) := by
  rcases hf : env.faceResponse with m | fj
  · intro e he url fd hef
    subst hef
    simp [processVerification, pipelineRun, h1, h2, hf] at he
    rcases he with ⟨h3, h4⟩
    simp [h3, h4]
  · rcases hmatch : (!fj.success || !fj.matched) with _ | _
    · rcases ht : env.textResponse with m | tj
      · intro e he url fd hef
        subst hef
        simp [processVerification, pipelineRun, h1, h2, hf, hmatch, ht] at he
        rcases he with ⟨h3, h4⟩ | ⟨h3, h4⟩ <;> simp [h3, h4]
      · rcases hsu : (!tj.success) with _ | _
        · intro e he url fd hef
          subst hef
          simp [processVerification, pipelineRun, h1, h2, hf, hmatch, ht, hsu] at he
          rcases he with ⟨h3, h4⟩ | ⟨h3, h4⟩ <;> simp [h3, h4]
        · intro e he url fd hef
          subst hef
          simp [processVerification, pipelineRun, h1, h2, hf, hmatch, ht, hsu] at he
          rcases he with ⟨h3, h4⟩ | ⟨h3, h4⟩ <;> simp [h3, h4]
    · intro e he url fd hef
      subst hef
      simp [processVerification, pipelineRun, h1, h2, hf, hmatch] at he
      rcases he with ⟨h3, h4⟩
      simp [h3, h4]

/-- Witness for C6 at the concrete fixtures. -/
theorem requests_carry_expected_fields_witness :
    convertBase64ToFile stateW.frontID "front-id.jpg" = Except.ok fileFrontW ∧
    convertBase64ToFile stateW.selfieImage "selfie.jpg" = Except.ok fileSelfieW ∧
    (∀ e ∈ (processVerification envMatch stateW).2, ∀ url fd, e = Ev.fetch url fd →
      (url = compareFacesUrl ∧ fd = [("image1", fileFrontW), ("image2", fileSelfieW)]) ∨
      (url = extractTextUrl ∧ fd = [("image", fileFrontW)])) :=
  ⟨rfl, rfl,
   requests_carry_expected_fields envMatch stateW fileFrontW fileSelfieW rfl rfl⟩

/-- C7: evaluating `captureImage` with no bound video sink: the very first
statement dereferences `videoRef.current` and the resulting `TypeError`
propagates uncaught (the handler has no guard and no try/catch), so the
code does crash rather than no-op or surface an explicit error. -/
theorem captureImage_null_sink_throws :
    captureImage camW initialState =
      Except.error "TypeError: Cannot read properties of null" := rfl

/-- C8: `stopWebcam` is idempotent — with no acquired stream it changes
nothing, and a second call in succession leaves the state of the first
(every track is already stopped, and re-stopping a stopped track is a
no-op). -/
theorem stopWebcam_idempotent (c : CameraState) :
    stopWebcam (stopWebcam c) = stopWebcam c ∧
    stopWebcam { c with streamRef := none } = { c with streamRef := none } := by
  constructor
  · rcases hs : c.streamRef with _ | tracks
    · simp [stopWebcam, hs]
    · simp [stopWebcam, hs, List.map_map, Function.comp_def, stopTrack_stopTrack]
  · simp [stopWebcam]

/-- C9: every run of `processVerification` emits `setIsProcessing(true)`
then `setError(null)` as its first two events — before any conversion or
fetch — and the error field of the resulting state does not depend on the
error stored before the run. -/
theorem run_clears_error_first (env : Env) (s : WizardState) :
    ((processVerification env s).2.take 2 =
      [Ev.setIsProcessing true, Ev.setError none]) ∧
    (∀ e₁ : Option String,
      (processVerification env { s with error := e₁ }).1.error =
        (processVerification env s).1.error) := by
  constructor
  · rcases hp : pipelineRun env s.frontID s.selfieImage with ⟨evs, res⟩
    cases res with
    | error m => simp [processVerification, hp]
    | ok d => simp [processVerification, hp]
  · intro e₁
    rcases hp : pipelineRun env s.frontID s.selfieImage with ⟨evs, res⟩
    have hp2 : pipelineRun env ({ s with error := e₁ } : WizardState).frontID
        ({ s with error := e₁ } : WizardState).selfieImage = (evs, res) := hp
    cases res with
    | error m => simp [processVerification, hp, hp2]
    | ok d => simp [processVerification, hp, hp2]

/-- C10: a file-selection event carrying no file leaves the whole wizard
state unchanged. -/
theorem emptyFileSelection_noop (side : String) (s : WizardState) :
    handleFileUpload none side s = s := rfl

end IDV
